import Mathlib

/-
Verification of the order-processing domain core
(source: 객체지향/장고객체지향/빡센거.py).

The Python classes are shallowly embedded as Lean structures; methods that
can raise ValueError / RuntimeError become functions into Except String.
Machine integers are Nat (amounts are validated non-negative at
construction) or Int (raw Python int parameters such as quantities).
The float multipliers used by Money.__mul__ (0.90, 0.95, promotion rates,
the 0.30 cap) are embedded as exact rationals num/den together with the
round-half-to-even rounding that Python's round() applies; datetime
fields, logging and thread locks carry no domain behavior and are omitted.
-/

set_option linter.unusedVariables false

namespace Shop

/-- Decidable equality for Except values, used to evaluate embedded
fallible operations on concrete inputs. -/
instance {ε α : Type} [DecidableEq ε] [DecidableEq α] : DecidableEq (Except ε α)
  | .error a, .error b =>
    if h : a = b then .isTrue (by rw [h]) else .isFalse (fun hh => h (Except.error.inj hh))
  | .error _, .ok _ => .isFalse (fun hh => Except.noConfusion hh)
  | .ok _, .error _ => .isFalse (fun hh => Except.noConfusion hh)
  | .ok a, .ok b =>
    if h : a = b then .isTrue (by rw [h]) else .isFalse (fun hh => h (Except.ok.inj hh))

/-- Round a/b to the nearest natural number, ties to even: the behavior of
Python's round() (banker's rounding) on the exact rational a/b, which is
what int(round(amount * k)) in Money.__mul__ computes for the rate
multipliers appearing in the source (all products there are exactly
representable). -/
def roundHalfEven (a b : Nat) : Nat :=
  let q := a / b
  let r := a % b
  if 2 * r < b then q
  else if b < 2 * r then q + 1
  else if q % 2 = 0 then q else q + 1

/-- Money value object: non-negative integer amount in minor units plus a
currency code. Negative construction is unrepresentable (the Python
__post_init__ rejects amount < 0). -/
structure Money where
  amount : Nat
  currency : String
deriving DecidableEq

/-- Money.zero() classmethod. -/
def Money.zero : Money := ⟨0, "KRW"⟩

/-- Money.__add__: currency must match. -/
def Money.add (m other : Money) : Except String Money :=
  if m.currency ≠ other.currency then .error "Currency mismatch"
  else .ok ⟨m.amount + other.amount, m.currency⟩

/-- Money.__sub__: currency must match and the result may not go negative. -/
def Money.sub (m other : Money) : Except String Money :=
  if m.currency ≠ other.currency then .error "Currency mismatch"
  else if m.amount < other.amount then .error "Money subtraction would be negative"
  else .ok ⟨m.amount - other.amount, m.currency⟩

/-- Money.__mul__ with an integer scalar k (int * int is exact, so
int(round(amount * k)) is just the product). -/
def Money.mul_int (m : Money) (k : Nat) : Money := ⟨m.amount * k, m.currency⟩

/-- Money.__mul__ with a fractional scalar num/den (the source passes a
float; int(round(...)) rounds half to even). -/
def Money.mul_rate (m : Money) (num den : Nat) : Money :=
  ⟨roundHalfEven (m.amount * num) den, m.currency⟩

/-- SKU value object; construction rejects the empty string and length
over 64. -/
structure SKU where
  value : String
deriving DecidableEq

/-- SKU.__post_init__ as a checked constructor. -/
def SKU.make (value : String) : Except String SKU :=
  if value = "" ∨ value.length > 64 then .error "Invalid SKU" else .ok ⟨value⟩

inductive OrderStatus
  | DRAFT
  | SUBMITTED
  | PAID
  | SHIPPED
  | CANCELED
deriving DecidableEq

structure Customer where
  id : String
  email : String
  first_purchase_done : Bool
deriving DecidableEq

structure Product where
  sku : SKU
  name : String
  price : Money
  category : String
deriving DecidableEq

/-- InventoryItem entity. The quantity is a raw Python int. -/
structure InventoryItem where
  sku : SKU
  quantity : Int
deriving DecidableEq

/-- InventoryItem.reserve: reject non-positive qty and insufficient stock,
otherwise decrement. -/
def InventoryItem.reserve (item : InventoryItem) (qty : Int) : Except String InventoryItem :=
  if qty ≤ 0 then .error "qty must be positive"
  else if item.quantity < qty then .error "insufficient inventory"
  else .ok { item with quantity := item.quantity - qty }

/-- InventoryItem.restock: reject non-positive qty, otherwise increment. -/
def InventoryItem.restock (item : InventoryItem) (qty : Int) : Except String InventoryItem :=
  if qty ≤ 0 then .error "qty must be positive"
  else .ok { item with quantity := item.quantity + qty }

structure OrderLine where
  sku : SKU
  name : String
  unit_price : Money
  qty : Nat
deriving DecidableEq

/-- OrderLine.line_total property. -/
def OrderLine.line_total (l : OrderLine) : Money := l.unit_price.mul_int l.qty

inductive DomainEvent
  | OrderSubmitted (order_id : String)
  | PaymentReceived (order_id : String) (payment_id : String)
  | OrderShipped (order_id : String) (tracking_no : String)
  | OrderCanceled (order_id : String) (reason : String)
deriving DecidableEq

/-- Order aggregate (created_at omitted: no domain behavior reads it). -/
structure Order where
  id : String
  customer_id : String
  lines : List OrderLine
  status : OrderStatus
  subtotal : Money
  discount_total : Money
  grand_total : Money
  events : List DomainEvent
deriving DecidableEq

/-- A freshly constructed Order with the dataclass field defaults. -/
def Order.new (id customer_id : String) : Order :=
  { id := id, customer_id := customer_id, lines := [], status := .DRAFT,
    subtotal := Money.zero, discount_total := Money.zero, grand_total := Money.zero,
    events := [] }

/-- The accumulation loop of Order._recalc_totals: fold Money.__add__ over
a list starting from an accumulator. -/
def Money.sum_add (acc : Money) : List Money → Except String Money
  | [] => .ok acc
  | m :: rest =>
    match acc.add m with
    | .error e => .error e
    | .ok acc2 => Money.sum_add acc2 rest

/-- Sum of the line totals of a list of order lines, the subtotal that
Order._recalc_totals computes (starting from Money.zero()). -/
def sum_line_totals (ls : List OrderLine) : Except String Money :=
  Money.sum_add Money.zero (ls.map OrderLine.line_total)

/-- Order._recalc_totals: resum the subtotal from scratch, then recompute
grand_total = subtotal - discount_total. -/
def Order.recalc_totals (o : Order) : Except String Order :=
  match sum_line_totals o.lines with
  | .error e => .error e
  | .ok st =>
    match st.sub o.discount_total with
    | .error e => .error e
    | .ok gt => .ok { o with subtotal := st, grand_total := gt }

/-- Order.add_line: only in DRAFT, qty must be positive; append a line
built from the product and recompute totals. -/
def Order.add_line (o : Order) (product : Product) (qty : Int) : Except String Order :=
  if o.status ≠ OrderStatus.DRAFT then .error "Can only add lines in DRAFT"
  else if qty ≤ 0 then .error "qty must be positive"
  else Order.recalc_totals
    { o with lines := o.lines ++
        [{ sku := product.sku, name := product.name, unit_price := product.price,
           qty := qty.toNat }] }

/-- Order.apply_discount: add the discount to discount_total (a negative
discount is unrepresentable here since Money amounts are Nat), reject it
when the new total would exceed the subtotal, then recompute totals. -/
def Order.apply_discount (o : Order) (discount : Money) : Except String Order :=
  match o.discount_total.add discount with
  | .error e => .error e
  | .ok new_discount =>
    if new_discount.amount > o.subtotal.amount then .error "discount exceeds subtotal"
    else Order.recalc_totals { o with discount_total := new_discount }

/-- Order.submit: requires at least one line and DRAFT status. -/
def Order.submit (o : Order) : Except String Order :=
  if o.lines.isEmpty then .error "empty order"
  else if o.status ≠ OrderStatus.DRAFT then .error "already submitted"
  else .ok { o with status := .SUBMITTED, events := o.events ++ [.OrderSubmitted o.id] }

/-- Order.mark_paid: requires SUBMITTED status. -/
def Order.mark_paid (o : Order) (payment_id : String) : Except String Order :=
  if o.status ≠ OrderStatus.SUBMITTED then .error "order not submitted"
  else .ok { o with status := .PAID, events := o.events ++ [.PaymentReceived o.id payment_id] }

/-- Order.ship: requires PAID status. -/
def Order.ship (o : Order) (tracking_no : String) : Except String Order :=
  if o.status ≠ OrderStatus.PAID then .error "not paid"
  else .ok { o with status := .SHIPPED, events := o.events ++ [.OrderShipped o.id tracking_no] }

/-- Order.cancel: rejected only for PAID and SHIPPED; any other status
(including CANCELED itself) transitions to CANCELED and appends an
OrderCanceled event. -/
def Order.cancel (o : Order) (reason : String) : Except String Order :=
  if o.status = OrderStatus.PAID ∨ o.status = OrderStatus.SHIPPED then
    .error "cannot cancel after payment/ship"
  else .ok { o with status := .CANCELED, events := o.events ++ [.OrderCanceled o.id reason] }

/-- Sequences of the two total-mutating Order operations, for stating the
invariant over arbitrary legal call sequences. -/
inductive OrderOp
  | addLine (product : Product) (qty : Int)
  | applyDiscount (discount : Money)
deriving DecidableEq

/-- Dispatch one operation of a call sequence. -/
def Order.apply_op (o : Order) : OrderOp → Except String Order
  | .addLine p q => o.add_line p q
  | .applyDiscount d => o.apply_discount d

/-- Run a sequence of operations, stopping at the first failure (a raised
ValueError aborts the Python call with the order unchanged by that call). -/
def Order.run_ops : Order → List OrderOp → Except String Order
  | o, [] => .ok o
  | o, op :: rest =>
    match o.apply_op op with
    | .error e => .error e
    | .ok o1 => Order.run_ops o1 rest

/-- The totals invariant of the Order aggregate: the stored subtotal is
the sum of the line totals, grand_total is subtotal minus discount_total,
and the discount never exceeds the subtotal. -/
def Order.totalsInvariant (o : Order) : Prop :=
  sum_line_totals o.lines = .ok o.subtotal ∧
  o.grand_total.amount = o.subtotal.amount - o.discount_total.amount ∧
  o.discount_total.amount ≤ o.subtotal.amount

/-- SimplePricing.price_for: flat qty x unit price (the unused now
parameter of the source is omitted). -/
def SimplePricing.price_for (product : Product) (qty : Nat) : Money :=
  product.price.mul_int qty

/-- TieredPricing.price_for: 10% off the scaled total from 10 units, 5%
off from 5 units, full price below (the unused now parameter of the
source is omitted). -/
def TieredPricing.price_for (product : Product) (qty : Nat) : Money :=
  if qty ≥ 10 then (product.price.mul_int qty).mul_rate 90 100
  else if qty ≥ 5 then (product.price.mul_int qty).mul_rate 95 100
  else product.price.mul_int qty

/-- The three PromotionSpec variants. MinAmountSpec's float rate is
embedded as the exact rational rate_num/rate_den. -/
inductive PromotionSpec
  | minAmount (threshold : Money) (rate_num rate_den : Nat)
  | firstPurchase (fixed_amount : Money)
  | categoryBundle (category : String) (free_qty : Nat)
deriving DecidableEq

/-- is_satisfied of each specification. CategoryBundleSpec sums qty over
lines with a truthy (non-empty) name, as the source generator expression
does. -/
def PromotionSpec.is_satisfied (s : PromotionSpec) (o : Order) (c : Customer) : Bool :=
  match s with
  | .minAmount threshold _ _ => decide (o.subtotal.amount ≥ threshold.amount)
  | .firstPurchase _ => !c.first_purchase_done
  | .categoryBundle _ free_qty =>
    decide (((o.lines.filter (fun l => l.name != "")).map OrderLine.qty).sum ≥ free_qty)

/-- Python min(lines, key=unit_price.amount, default=None): the first line
with minimal unit price, none on an empty list. -/
def cheapest_line : List OrderLine → Option OrderLine
  | [] => none
  | l :: rest =>
    match cheapest_line rest with
    | none => some l
    | some m => if m.unit_price.amount < l.unit_price.amount then some m else some l

/-- discount of each specification. -/
def PromotionSpec.discount (s : PromotionSpec) (o : Order) (c : Customer) : Money :=
  match s with
  | .minAmount _ rate_num rate_den =>
    if s.is_satisfied o c then ⟨roundHalfEven (o.subtotal.amount * rate_num) rate_den, "KRW"⟩
    else Money.zero
  | .firstPurchase fixed_amount =>
    if s.is_satisfied o c then fixed_amount else Money.zero
  | .categoryBundle _ _ =>
    if s.is_satisfied o c then
      match cheapest_line o.lines with
      | some cheapest => cheapest.unit_price
      | none => Money.zero
    else Money.zero

/-- CompositePromotion.discount_for: sum every specification's discount
with Money.__add__, then cap at int(round(subtotal * 0.30)); the result
is constructed with the default KRW currency as in the source. -/
def CompositePromotion.discount_for (specs : List PromotionSpec) (o : Order) (c : Customer) :
    Except String Money :=
  match Money.sum_add Money.zero (specs.map (fun s => s.discount o c)) with
  | .error e => .error e
  | .ok total =>
    .ok ⟨min total.amount (roundHalfEven (o.subtotal.amount * 30) 100), "KRW"⟩

/-- The dict backing an in-memory repository, embedded as an association
list: assignment replaces the entry in place or appends a fresh one. -/
abbrev Store (α : Type) := List (String × α)

/-- dict lookup. -/
def Store.get {α : Type} : Store α → String → Option α
  | [], _ => none
  | (k2, v) :: rest, k => if k2 = k then some v else Store.get rest k

/-- dict assignment store[k] = v. -/
def Store.set {α : Type} : Store α → String → α → Store α
  | [], k, v => [(k, v)]
  | (k2, v2) :: rest, k, v =>
    if k2 = k then (k, v) :: rest else (k2, v2) :: Store.set rest k v

/-- InMemoryProductRepository.add: plain dict assignment, no duplicate
check. -/
def InMemoryProductRepository.add (store : Store Product) (product : Product) : Store Product :=
  store.set product.sku.value product

/-- InMemoryOrderRepository.add: rejects a duplicate order id. -/
def InMemoryOrderRepository.add (store : Store Order) (order : Order) :
    Except String (Store Order) :=
  if (store.get order.id).isSome then .error "Order already exists"
  else .ok (store.set order.id order)

/-- InMemoryOrderRepository.update: rejects an absent order id. -/
def InMemoryOrderRepository.update (store : Store Order) (order : Order) :
    Except String (Store Order) :=
  if (store.get order.id).isNone then .error "Order not found"
  else .ok (store.set order.id order)

/-- InMemoryInventoryRepository.add: stores a defensive copy, no
duplicate check. -/
def InMemoryInventoryRepository.add (store : Store InventoryItem) (item : InventoryItem) :
    Store InventoryItem :=
  store.set item.sku.value ⟨item.sku, item.quantity⟩

/-- InMemoryCustomerRepository.add: plain dict assignment, no duplicate
check. -/
def InMemoryCustomerRepository.add (store : Store Customer) (customer : Customer) :
    Store Customer :=
  store.set customer.id customer

/-- The observable state of an InMemoryUnitOfWork scope: its pending
event accumulator, and the sequence of events flushed to the event bus so
far (EventBus.publish delivers synchronously; handler dispatch details
carry no state we claim about, so a flush is recorded as appending the
flushed events to the delivered sequence). -/
structure UowState where
  events : List DomainEvent
  published : List DomainEvent
deriving DecidableEq

/-- InMemoryUnitOfWork.commit: flush accumulated events to the bus, then
clear the accumulator. -/
def InMemoryUnitOfWork.commit (s : UowState) : UowState :=
  { events := [], published := s.published ++ s.events }

/-- InMemoryUnitOfWork.rollback: a no-op on the in-memory implementation
(it only logs). -/
def InMemoryUnitOfWork.rollback (s : UowState) : UowState := s

/-- InMemoryUnitOfWork.__enter__: clears the pending-event accumulator. -/
def InMemoryUnitOfWork.enter_scope (s : UowState) : UowState := { s with events := [] }

/-- InMemoryUnitOfWork.__exit__: rollback when an exception was raised in
the scope body, commit otherwise. The Bool of the result records whether
the exception propagates to the caller: __exit__ returns None, so Python
re-raises whenever one was raised. -/
def InMemoryUnitOfWork.exit_scope (s : UowState) (exc_raised : Bool) : UowState × Bool :=
  if exc_raised then (InMemoryUnitOfWork.rollback s, true)
  else (InMemoryUnitOfWork.commit s, false)

/-- The service-level state that OrderService.checkout reads and writes:
the order and customer repositories, the process-wide idempotency cache
of _charge, and the number of gateway charge invocations so far (the
call-counting test double of the spec). The product and inventory
repositories and the scope's event accumulator are untouched by checkout
and _charge and are modeled separately. -/
structure ServiceState where
  orders : Store Order
  customers : Store Customer
  idempotency_store : Store String
  gateway_calls : Nat
deriving DecidableEq

/-- A payment gateway test double: the result of the n-th charge
invocation (counting from 0). An error is the transient RuntimeError the
retry decorator catches. -/
structure Gateway where
  result : Nat → Except String String

/-- One attempt of the body of OrderService._charge: return the cached
payment_id when the idempotency key is known, otherwise invoke the
gateway and cache the result under the key. -/
def OrderService.charge_body (gw : Gateway) (st : ServiceState) (idem_key : String) :
    ServiceState × Except String String :=
  match st.idempotency_store.get idem_key with
  | some payment_id => (st, .ok payment_id)
  | none =>
    match gw.result st.gateway_calls with
    | .error e => ({ st with gateway_calls := st.gateway_calls + 1 }, .error e)
    | .ok payment_id =>
      ({ st with gateway_calls := st.gateway_calls + 1,
                 idempotency_store := st.idempotency_store.set idem_key payment_id },
       .ok payment_id)

/-- The retry decorator: up to the given number of attempts, returning
the first success, re-raising the last error when all attempts fail (the
backoff sleep carries no state). -/
def retry_call (gw : Gateway) (idem_key : String) :
    Nat → ServiceState → ServiceState × Except String String
  | 0, st => (st, .error "retry: no attempt made")
  | 1, st => OrderService.charge_body gw st idem_key
  | n + 2, st =>
    match OrderService.charge_body gw st idem_key with
    | (st2, .ok payment_id) => (st2, .ok payment_id)
    | (st2, .error _) => retry_call gw idem_key (n + 1) st2

/-- OrderService._charge: the charge body wrapped in retry(times=3). -/
def OrderService.charge (gw : Gateway) (st : ServiceState) (idem_key : String) :
    ServiceState × Except String String :=
  retry_call gw idem_key 3 st

/-- OrderService.checkout: default the idempotency key from the order id,
load order and customer, require SUBMITTED, charge through the idempotent
retrying wrapper, mark the order paid and persist it, and flip the
customer's first-purchase flag when unset. An error return leaves the
repositories as they were at that point (a raised ValueError aborts the
scope; the in-memory rollback undoes nothing). -/
def OrderService.checkout (gw : Gateway) (st : ServiceState) (order_id : String)
    (idem_key : Option String) : ServiceState × Except String String :=
  let key := idem_key.getD ("idem:" ++ order_id)
  match st.orders.get order_id with
  | none => (st, .error "order not found")
  | some order =>
    match st.customers.get order.customer_id with
    | none => (st, .error "customer not found")
    | some customer =>
      if order.status ≠ OrderStatus.SUBMITTED then (st, .error "order not submitted")
      else
        match OrderService.charge gw st key with
        | (st2, .error e) => (st2, .error e)
        | (st2, .ok payment_id) =>
          match order.mark_paid payment_id with
          | .error e => (st2, .error e)
          | .ok order2 =>
            let st3 := { st2 with orders := st2.orders.set order_id order2 }
            let customer2 : Customer := { customer with first_purchase_done := true }
            let st4 :=
              if customer.first_purchase_done then st3
              else { st3 with customers := st3.customers.set customer.id customer2 }
            (st4, .ok payment_id)

/-- The 5500-per-unit product of the bootstrap data. -/
def appleProduct : Product := ⟨⟨"SKU-APPLE"⟩, "apple 1kg", ⟨5500, "KRW"⟩, "fruit"⟩

/-- The 28900-per-unit product of the bootstrap data. -/
def beefProduct : Product := ⟨⟨"SKU-BEEF"⟩, "beef 500g", ⟨28900, "KRW"⟩, "meat"⟩

/-- The 2200-per-unit product of the bootstrap data. -/
def milkProduct : Product := ⟨⟨"SKU-MILK"⟩, "milk 1L", ⟨2200, "KRW"⟩, "dairy"⟩

/-- A SUBMITTED order ready for checkout. -/
def c1Order : Order :=
  { id := "O1", customer_id := "CUST-001",
    lines := [{ sku := ⟨"SKU-APPLE"⟩, name := "apple 1kg", unit_price := ⟨5500, "KRW"⟩, qty := 2 }],
    status := .SUBMITTED, subtotal := ⟨11000, "KRW"⟩, discount_total := ⟨0, "KRW"⟩,
    grand_total := ⟨11000, "KRW"⟩, events := [.OrderSubmitted "O1"] }

/-- The customer of that order. -/
def c1Customer : Customer :=
  { id := "CUST-001", email := "user@example.com", first_purchase_done := false }

/-- The service state holding that order and customer, an empty
idempotency cache and no gateway calls yet. -/
def c1State : ServiceState :=
  { orders := [("O1", c1Order)], customers := [("CUST-001", c1Customer)],
    idempotency_store := [], gateway_calls := 0 }

/-- A gateway double that always succeeds with the same payment_id. -/
def okGateway : Gateway := ⟨fun _ => .ok "PGPAY-1"⟩

/-- The service state after the first checkout call. -/
def c1StateAfter : ServiceState :=
  (OrderService.checkout okGateway c1State "O1" (some "idem-123")).1

/-- A short legal call sequence for the totals-invariant witness. -/
def c2Ops : List OrderOp := [.addLine appleProduct 2, .applyDiscount ⟨100, "KRW"⟩]

/-- The order that sequence produces from a fresh order. -/
def c2Final : Order :=
  { id := "O1", customer_id := "C1",
    lines := [{ sku := ⟨"SKU-APPLE"⟩, name := "apple 1kg", unit_price := ⟨5500, "KRW"⟩, qty := 2 }],
    status := .DRAFT, subtotal := ⟨11000, "KRW"⟩, discount_total := ⟨100, "KRW"⟩,
    grand_total := ⟨10900, "KRW"⟩, events := [] }

/-- An order already in the CANCELED status. -/
def canceledOrder : Order :=
  { id := "O9", customer_id := "C9", lines := [], status := .CANCELED,
    subtotal := Money.zero, discount_total := Money.zero, grand_total := Money.zero,
    events := [.OrderCanceled "O9" "first cancellation"] }

/-- An order in the PAID status (with consistent totals). -/
def paidOrder : Order :=
  { id := "O8", customer_id := "C8",
    lines := [{ sku := ⟨"SKU-APPLE"⟩, name := "apple 1kg", unit_price := ⟨5500, "KRW"⟩, qty := 2 }],
    status := .PAID, subtotal := ⟨11000, "KRW"⟩, discount_total := ⟨0, "KRW"⟩,
    grand_total := ⟨11000, "KRW"⟩, events := [] }

/-- A service state with an empty idempotency cache, for the _charge
witness. -/
def c5State : ServiceState :=
  { orders := [], customers := [], idempotency_store := [], gateway_calls := 0 }

/-- A list of specifications whose summed discount exceeds the 30% cap of
the order below. -/
def c6Specs : List PromotionSpec := [.firstPurchase ⟨800, "KRW"⟩]

/-- An order with subtotal 1000, so the 30% cap is 300. -/
def c6Order : Order :=
  { id := "O6", customer_id := "C6", lines := [], status := .DRAFT,
    subtotal := ⟨1000, "KRW"⟩, discount_total := Money.zero, grand_total := ⟨1000, "KRW"⟩,
    events := [] }

/-- A customer who has not yet completed a first purchase. -/
def c6Customer : Customer := { id := "C6", email := "c6@example.com", first_purchase_done := false }

/-- The promotion wiring of the end-to-end scenario: MinAmountSpec with
threshold 30000 and rate 0.05, plus FirstPurchaseSpec of 3000. -/
def c7Promos : List PromotionSpec :=
  [.minAmount ⟨30000, "KRW"⟩ 5 100, .firstPurchase ⟨3000, "KRW"⟩]

/-- The order after adding 6 units of the 5500 product: the subtotal is
the raw 6 x 5500, not the tiered display price. -/
def c7After1 : Order :=
  { id := "ORD-1", customer_id := "CUST-001",
    lines := [{ sku := ⟨"SKU-APPLE"⟩, name := "apple 1kg", unit_price := ⟨5500, "KRW"⟩, qty := 6 }],
    status := .DRAFT, subtotal := ⟨33000, "KRW"⟩, discount_total := ⟨0, "KRW"⟩,
    grand_total := ⟨33000, "KRW"⟩, events := [] }

/-- The order after all three add_line calls of the scenario. -/
def c7Loaded : Order :=
  { id := "ORD-1", customer_id := "CUST-001",
    lines :=
      [{ sku := ⟨"SKU-APPLE"⟩, name := "apple 1kg", unit_price := ⟨5500, "KRW"⟩, qty := 6 },
       { sku := ⟨"SKU-BEEF"⟩, name := "beef 500g", unit_price := ⟨28900, "KRW"⟩, qty := 1 },
       { sku := ⟨"SKU-MILK"⟩, name := "milk 1L", unit_price := ⟨2200, "KRW"⟩, qty := 3 }],
    status := .DRAFT, subtotal := ⟨68500, "KRW"⟩, discount_total := ⟨0, "KRW"⟩,
    grand_total := ⟨68500, "KRW"⟩, events := [] }

/-- The scenario order after applying the composite discount of 6425. -/
def c7Final : Order :=
  { c7Loaded with discount_total := ⟨6425, "KRW"⟩, grand_total := ⟨62075, "KRW"⟩ }

/-- A product stored under SKU-X. -/
def c8Product1 : Product := ⟨⟨"SKU-X"⟩, "first version", ⟨100, "KRW"⟩, "misc"⟩

/-- A different product with the same SKU-X. -/
def c8Product2 : Product := ⟨⟨"SKU-X"⟩, "second version", ⟨200, "KRW"⟩, "misc"⟩

/-- A product store already holding SKU-X. -/
def c8Products : Store Product := [("SKU-X", c8Product1)]

/-- An order store already holding the paid order's id. -/
def c8Orders : Store Order := [("O8", paidOrder)]

/-- An inventory item with 10 units in stock. -/
def tenInStock : InventoryItem := ⟨⟨"SKU-APPLE"⟩, 10⟩

theorem Money.add_ok {a b c : Money} (h : Money.add a b = .ok c) :
    c = ⟨a.amount + b.amount, a.currency⟩ ∧ b.currency = a.currency := by
  unfold Money.add at h
  split at h
  · exact absurd h (by simp)
  · rename_i hc
    simp only [ne_eq, not_not] at hc
    refine ⟨?_, hc.symm⟩
    simpa using h.symm

theorem Money.sub_ok {a b c : Money} (h : Money.sub a b = .ok c) :
    c = ⟨a.amount - b.amount, a.currency⟩ ∧ b.amount ≤ a.amount ∧ b.currency = a.currency := by
  unfold Money.sub at h
  split at h
  · exact absurd h (by simp)
  · rename_i hc
    simp only [ne_eq, not_not] at hc
    split at h
    · exact absurd h (by simp)
    · rename_i hlt
      exact ⟨by simpa using h.symm, Nat.le_of_not_lt hlt, hc.symm⟩

theorem Money.sum_add_currency {ms : List Money} :
    ∀ {acc m : Money}, Money.sum_add acc ms = .ok m → m.currency = acc.currency := by
  induction ms with
  | nil =>
    intro acc m h
    simp only [Money.sum_add] at h
    cases h
    rfl
  | cons hd tl ih =>
    intro acc m h
    simp only [Money.sum_add] at h
    split at h
    · exact absurd h (by simp)
    · rename_i acc2 hadd
      have := (Money.add_ok hadd).1
      rw [ih h, this]

/-- Whenever _recalc_totals succeeds, the resulting order satisfies the
totals invariant outright (the subtotal is resummed from scratch and the
Money subtraction enforces discount <= subtotal). -/
theorem Order.recalc_totals_ok {o o' : Order} (h : Order.recalc_totals o = .ok o') :
    o'.totalsInvariant ∧ o'.lines = o.lines ∧ o'.discount_total = o.discount_total ∧
      o'.status = o.status ∧ o'.id = o.id ∧ o'.events = o.events := by
  unfold Order.recalc_totals at h
  split at h
  · exact absurd h (by simp)
  · rename_i st hst
    split at h
    · exact absurd h (by simp)
    · rename_i gt hsub
      have ho : o' = { o with subtotal := st, grand_total := gt } := by
        simpa using h.symm
      obtain ⟨hgt, hle, _⟩ := Money.sub_ok hsub
      subst ho
      exact ⟨⟨hst, by simp [hgt], hle⟩, rfl, rfl, rfl, rfl, rfl⟩

/-- A successful add_line or apply_discount call establishes the totals
invariant on its result, whatever the input state was. -/
theorem Order.apply_op_ok {o o' : Order} {op : OrderOp} (h : o.apply_op op = .ok o') :
    o'.totalsInvariant := by
  cases op with
  | addLine p q =>
    simp only [Order.apply_op, Order.add_line] at h
    split at h
    · exact absurd h (by simp)
    · split at h
      · exact absurd h (by simp)
      · exact (Order.recalc_totals_ok h).1
  | applyDiscount d =>
    simp only [Order.apply_op, Order.apply_discount] at h
    split at h
    · exact absurd h (by simp)
    · rename_i nd hadd
      split at h
      · exact absurd h (by simp)
      · exact (Order.recalc_totals_ok h).1

theorem Order.run_ops_invariant {ops : List OrderOp} :
    ∀ {o o' : Order}, o.totalsInvariant → Order.run_ops o ops = .ok o' →
      o'.totalsInvariant := by
  induction ops with
  | nil =>
    intro o o' hinv h
    simp only [Order.run_ops] at h
    cases h
    exact hinv
  | cons op rest ih =>
    intro o o' hinv h
    simp only [Order.run_ops] at h
    split at h
    · exact absurd h (by simp)
    · rename_i o1 hop
      exact ih (Order.apply_op_ok hop) h

theorem Order.new_invariant (id customer_id : String) :
    (Order.new id customer_id).totalsInvariant := by
  refine ⟨rfl, rfl, Nat.le_refl 0⟩

theorem Store.get_set_self {α : Type} (s : Store α) (k : String) (v : α) :
    (s.set k v).get k = some v := by
  induction s with
  | nil => simp [Store.set, Store.get]
  | cons hd tl ih =>
    obtain ⟨k2, v2⟩ := hd
    by_cases h : k2 = k
    · simp [Store.set, Store.get, h]
    · simp [Store.set, Store.get, h, ih]

/-- C2: for every Order, after any sequence of legal add_line and
apply_discount calls starting from a fresh order, subtotal equals the sum
of the lines' line_total, grand_total equals subtotal minus
discount_total, and discount_total is at most subtotal. -/
theorem order_totals_invariant (id customer_id : String) (ops : List OrderOp) (o' : Order)
    (h : Order.run_ops (Order.new id customer_id) ops = .ok o') :
    o'.totalsInvariant :=
  Order.run_ops_invariant (Order.new_invariant id customer_id) h

theorem order_totals_invariant_witness :
    Order.run_ops (Order.new "O1" "C1") c2Ops = .ok c2Final ∧ c2Final.totalsInvariant :=
  ⟨by decide, order_totals_invariant "O1" "C1" c2Ops c2Final (by decide)⟩

/-- C3 counterexample: cancel on an order that is already CANCELED does
not fail; it succeeds, sets the status to CANCELED again and appends one
more OrderCanceled event, refuting the claim that cancel fails for every
order whose status is CANCELED. -/
theorem cancel_from_canceled_succeeds :
    canceledOrder.status = OrderStatus.CANCELED ∧
    Order.cancel canceledOrder "again" =
      .ok { canceledOrder with
              events := canceledOrder.events ++ [.OrderCanceled "O9" "again"] } := by
  constructor
  · rfl
  · decide

/-- C3 amended: cancel succeeds (setting status to CANCELED and appending
exactly one OrderCanceled event) if and only if the status is not PAID
and not SHIPPED, i.e. from DRAFT, SUBMITTED or CANCELED; for PAID or
SHIPPED it fails and leaves the order unchanged. -/
theorem cancel_allowed_statuses (o : Order) (reason : String) :
    (o.status = OrderStatus.PAID ∨ o.status = OrderStatus.SHIPPED →
       o.cancel reason = .error "cannot cancel after payment/ship") ∧
    (¬(o.status = OrderStatus.PAID ∨ o.status = OrderStatus.SHIPPED) →
       o.cancel reason =
         .ok { o with status := .CANCELED,
                      events := o.events ++ [.OrderCanceled o.id reason] }) := by
  unfold Order.cancel
  constructor
  · intro h
    rw [if_pos h]
  · intro h
    rw [if_neg h]

theorem cancel_allowed_statuses_witness :
    Order.cancel paidOrder "r" = .error "cannot cancel after payment/ship" ∧
    Order.cancel (Order.new "O2" "C2") "r" =
      .ok { Order.new "O2" "C2" with status := .CANCELED,
                                     events := [.OrderCanceled "O2" "r"] } :=
  ⟨(cancel_allowed_statuses paidOrder "r").1 (Or.inl rfl),
   (cancel_allowed_statuses (Order.new "O2" "C2") "r").2 (by decide)⟩

/-- C4: when an exception escapes the Unit-of-Work scope body, __exit__
runs rollback instead of commit, publishing none of the accumulated
events (the bus's delivered sequence is unchanged) while the exception
propagates to the caller; on a normal exit every accumulated event is
flushed to the bus in order and the accumulator is then cleared. -/
theorem uow_exit_commit_rollback (s : UowState) :
    InMemoryUnitOfWork.exit_scope s true = (s, true) ∧
    (InMemoryUnitOfWork.exit_scope s false).1.published = s.published ++ s.events ∧
    (InMemoryUnitOfWork.exit_scope s false).1.events = [] ∧
    (InMemoryUnitOfWork.exit_scope s false).2 = false := by
  refine ⟨rfl, rfl, rfl, rfl⟩

/-- C9: reserve(qty) on an item with quantity q fails (leaving the item
unchanged, since a failed call returns no updated item) whenever qty <= 0
or qty > q, and succeeds leaving quantity q - qty whenever 0 < qty <= q. -/
theorem inventory_reserve_spec (item : InventoryItem) (qty : Int) :
    (qty ≤ 0 → item.reserve qty = .error "qty must be positive") ∧
    (0 < qty → item.quantity < qty → item.reserve qty = .error "insufficient inventory") ∧
    (0 < qty → qty ≤ item.quantity →
       item.reserve qty = .ok { item with quantity := item.quantity - qty }) := by
  refine ⟨fun h => ?_, fun h1 h2 => ?_, fun h1 h2 => ?_⟩
  · simp [InventoryItem.reserve, h]
  · simp [InventoryItem.reserve, h2, not_le.mpr h1]
  · simp [InventoryItem.reserve, not_le.mpr h1, not_lt.mpr h2]

theorem inventory_reserve_spec_witness :
    tenInStock.reserve 0 = .error "qty must be positive" ∧
    tenInStock.reserve 11 = .error "insufficient inventory" ∧
    tenInStock.reserve 4 = .ok ⟨⟨"SKU-APPLE"⟩, 6⟩ :=
  ⟨(inventory_reserve_spec tenInStock 0).1 (by decide),
   (inventory_reserve_spec tenInStock 11).2.1 (by decide) (by decide),
   (inventory_reserve_spec tenInStock 4).2.2 (by decide) (by decide)⟩

/-- C6: CompositePromotion.discount_for returns the sum of the individual
specifications' discounts capped at 30% of the order's subtotal (rounded
to the nearest integer minor unit, ties to even); whenever the summed
discounts exceed the cap, the result is exactly the 30% cap. -/
theorem composite_discount_cap (specs : List PromotionSpec) (o : Order) (c : Customer)
    (total : Money)
    (h : Money.sum_add Money.zero (specs.map (fun s => s.discount o c)) = .ok total) :
    CompositePromotion.discount_for specs o c =
      .ok ⟨min total.amount (roundHalfEven (o.subtotal.amount * 30) 100), "KRW"⟩ ∧
    (roundHalfEven (o.subtotal.amount * 30) 100 < total.amount →
       CompositePromotion.discount_for specs o c =
         .ok ⟨roundHalfEven (o.subtotal.amount * 30) 100, "KRW"⟩) := by
  constructor
  · unfold CompositePromotion.discount_for
    rw [h]
  · intro hlt
    unfold CompositePromotion.discount_for
    rw [h]
    simp only [Nat.min_eq_right (Nat.le_of_lt hlt)]

theorem composite_discount_cap_witness :
    CompositePromotion.discount_for c6Specs c6Order c6Customer = .ok ⟨300, "KRW"⟩ :=
  (composite_discount_cap c6Specs c6Order c6Customer ⟨800, "KRW"⟩ (by decide)).2 (by decide)

/-- C7: the concrete end-to-end pricing scenario. Tiered pricing would
display 6 x 5500 at the 5% tier as 31350, while the order's own subtotal
after that add_line is the raw 33000; after all three lines the subtotal
is 68500; MinAmount(30000, 5%) plus FirstPurchase(3000) yield a composite
discount of 3425 + 3000 = 6425, which is below the 30% cap of 20550, and
applying it leaves grand_total 68500 - 6425 = 62075. -/
theorem end_to_end_scenario_totals :
    TieredPricing.price_for appleProduct 6 = ⟨31350, "KRW"⟩ ∧
    Order.run_ops (Order.new "ORD-1" "CUST-001") [.addLine appleProduct 6] = .ok c7After1 ∧
    c7After1.subtotal = ⟨33000, "KRW"⟩ ∧
    Order.run_ops (Order.new "ORD-1" "CUST-001")
        [.addLine appleProduct 6, .addLine beefProduct 1, .addLine milkProduct 3] =
      .ok c7Loaded ∧
    c7Loaded.subtotal = ⟨68500, "KRW"⟩ ∧
    CompositePromotion.discount_for c7Promos c7Loaded c1Customer = .ok ⟨6425, "KRW"⟩ ∧
    roundHalfEven (c7Loaded.subtotal.amount * 30) 100 = 20550 ∧
    6425 < 20550 ∧
    c7Loaded.apply_discount ⟨6425, "KRW"⟩ = .ok c7Final ∧
    c7Final.grand_total = ⟨62075, "KRW"⟩ := by
  refine ⟨by decide, by decide, rfl, by decide, rfl, by decide, by decide, by decide,
    by decide, rfl⟩

/-- C8 counterexample: InMemoryProductRepository.add with an
already-stored SKU does not fail; it silently replaces the stored
product, refuting the claim that add fails for every repository when the
id or SKU already exists. -/
theorem product_add_overwrites :
    c8Products.get "SKU-X" = some c8Product1 ∧
    InMemoryProductRepository.add c8Products c8Product2 = [("SKU-X", c8Product2)] ∧
    (InMemoryProductRepository.add c8Products c8Product2).get "SKU-X" = some c8Product2 := by
  refine ⟨by decide, by decide, by decide⟩

/-- C8 amended: only InMemoryOrderRepository.add fails on a duplicate id
(leaving the store unchanged, since the failed call returns no new
store); the product, customer and inventory in-memory add methods are
plain dict assignments that overwrite any entry stored under the same
key. -/
theorem repo_add_contract (so : Store Order) (o : Order) (sp : Store Product) (p : Product)
    (sc : Store Customer) (c : Customer) (si : Store InventoryItem) (item : InventoryItem) :
    ((so.get o.id).isSome → InMemoryOrderRepository.add so o = .error "Order already exists") ∧
    ((so.get o.id).isNone → InMemoryOrderRepository.add so o = .ok (so.set o.id o)) ∧
    (InMemoryProductRepository.add sp p).get p.sku.value = some p ∧
    (InMemoryCustomerRepository.add sc c).get c.id = some c ∧
    (InMemoryInventoryRepository.add si item).get item.sku.value =
      some ⟨item.sku, item.quantity⟩ := by
  refine ⟨fun h => ?_, fun h => ?_, ?_, ?_, ?_⟩
  · simp [InMemoryOrderRepository.add, h]
  · simp only [InMemoryOrderRepository.add]
    rw [if_neg]
    simp [Option.isNone_iff_eq_none.mp h]
  · exact Store.get_set_self sp p.sku.value p
  · exact Store.get_set_self sc c.id c
  · exact Store.get_set_self si item.sku.value ⟨item.sku, item.quantity⟩

theorem repo_add_contract_witness :
    InMemoryOrderRepository.add c8Orders paidOrder = .error "Order already exists" ∧
    InMemoryOrderRepository.add [] paidOrder = .ok [("O8", paidOrder)] :=
  ⟨(repo_add_contract c8Orders paidOrder [] c8Product1 [] c1Customer [] tenInStock).1
     (by decide),
   (repo_add_contract [] paidOrder [] c8Product1 [] c1Customer [] tenInStock).2.1
     (by decide)⟩

/-- C5: the first _charge call with an unknown idempotency key invokes
the gateway once and caches key to payment_id; any call on a state whose
cache already binds the key returns the cached payment_id with the state
(gateway call count included) unchanged — in particular the state the
first call produced. -/
theorem charge_idempotent_cache (gw : Gateway) (st : ServiceState) (idem_key payment_id : String)
    (h1 : st.idempotency_store.get idem_key = none)
    (h2 : gw.result st.gateway_calls = .ok payment_id) :
    OrderService.charge gw st idem_key =
      ({ st with gateway_calls := st.gateway_calls + 1,
                 idempotency_store := st.idempotency_store.set idem_key payment_id },
       .ok payment_id) ∧
    (∀ st2 : ServiceState, st2.idempotency_store.get idem_key = some payment_id →
       OrderService.charge gw st2 idem_key = (st2, .ok payment_id)) ∧
    OrderService.charge gw
        { st with gateway_calls := st.gateway_calls + 1,
                  idempotency_store := st.idempotency_store.set idem_key payment_id }
        idem_key =
      ({ st with gateway_calls := st.gateway_calls + 1,
                 idempotency_store := st.idempotency_store.set idem_key payment_id },
       .ok payment_id) := by
  have hcached : ∀ st2 : ServiceState, st2.idempotency_store.get idem_key = some payment_id →
      OrderService.charge gw st2 idem_key = (st2, .ok payment_id) := by
    intro st2 h
    simp [OrderService.charge, retry_call, OrderService.charge_body, h]
  refine ⟨?_, hcached, hcached _ (Store.get_set_self _ idem_key payment_id)⟩
  simp [OrderService.charge, retry_call, OrderService.charge_body, h1, h2]

theorem charge_idempotent_cache_witness :
    OrderService.charge okGateway c5State "K1" =
      ({ c5State with gateway_calls := 1, idempotency_store := [("K1", "PGPAY-1")] },
       .ok "PGPAY-1") ∧
    OrderService.charge okGateway
        { c5State with gateway_calls := 1, idempotency_store := [("K1", "PGPAY-1")] } "K1" =
      ({ c5State with gateway_calls := 1, idempotency_store := [("K1", "PGPAY-1")] },
       .ok "PGPAY-1") :=
  ⟨(charge_idempotent_cache okGateway c5State "K1" "PGPAY-1" (by decide) (by decide)).1,
   (charge_idempotent_cache okGateway c5State "K1" "PGPAY-1" (by decide) (by decide)).2.2⟩

/-- C1, evaluated at the failing input: with a SUBMITTED order and an
always-succeeding gateway, the first checkout with key idem-123 returns
PGPAY-1 and invokes the gateway once, but the second checkout with the
same key and the same order raises order-not-submitted (the first call
moved the order to PAID), instead of returning the identical payment_id
as the specification and the source's own demo assert require; the
gateway is indeed charged at most once for the key. -/
theorem checkout_idempotency_bug :
    (OrderService.checkout okGateway c1State "O1" (some "idem-123")).2 = .ok "PGPAY-1" ∧
    c1StateAfter.gateway_calls = 1 ∧
    (c1StateAfter.orders.get "O1").map Order.status = some OrderStatus.PAID ∧
    (OrderService.checkout okGateway c1StateAfter "O1" (some "idem-123")).2 =
      .error "order not submitted" ∧
    (OrderService.checkout okGateway c1StateAfter "O1" (some "idem-123")).1.gateway_calls = 1 := by
  refine ⟨by decide, by decide, by decide, by decide, by decide⟩

/-- C10: apply_discount is not restricted by order status. For every
order in any status whose stored totals are consistent, applying a
(necessarily non-negative) KRW discount that keeps discount_total within
the subtotal succeeds, leaves the status untouched and recomputes the
totals; add_line, by contrast, fails in every status other than DRAFT. -/
theorem apply_discount_status_free (o : Order) (d : Money)
    (hinv : o.totalsInvariant)
    (hdc : o.discount_total.currency = "KRW") (hc : d.currency = "KRW")
    (hle : o.discount_total.amount + d.amount ≤ o.subtotal.amount) :
    (∃ o', o.apply_discount d = .ok o' ∧ o'.status = o.status ∧
       o'.discount_total.amount = o.discount_total.amount + d.amount ∧
       o'.totalsInvariant) ∧
    (∀ p q, o.status ≠ OrderStatus.DRAFT →
       o.add_line p q = .error "Can only add lines in DRAFT") := by
  obtain ⟨hsum, hg, hd0⟩ := hinv
  have hsubc : o.subtotal.currency = "KRW" := Money.sum_add_currency hsum
  have hadd : Money.add o.discount_total d =
      .ok ⟨o.discount_total.amount + d.amount, o.discount_total.currency⟩ := by
    unfold Money.add
    rw [if_neg]
    rw [hdc, hc]
    exact fun hne => hne rfl
  have hsub : Money.sub o.subtotal
        ⟨o.discount_total.amount + d.amount, o.discount_total.currency⟩ =
      .ok ⟨o.subtotal.amount - (o.discount_total.amount + d.amount), o.subtotal.currency⟩ := by
    unfold Money.sub
    rw [if_neg, if_neg (not_lt.mpr hle)]
    rw [hsubc, hdc]
    exact fun hne => hne rfl
  have hrec : Order.recalc_totals
        { o with discount_total := ⟨o.discount_total.amount + d.amount, o.discount_total.currency⟩ } =
      .ok { o with
              discount_total := ⟨o.discount_total.amount + d.amount, o.discount_total.currency⟩,
              subtotal := o.subtotal,
              grand_total :=
                ⟨o.subtotal.amount - (o.discount_total.amount + d.amount), o.subtotal.currency⟩ } := by
    simp only [Order.recalc_totals, hsum, hsub]
  have happ : o.apply_discount d = Order.recalc_totals
      { o with discount_total := ⟨o.discount_total.amount + d.amount, o.discount_total.currency⟩ } := by
    simp only [Order.apply_discount, hadd]
    rw [if_neg (not_lt.mpr hle)]
  refine ⟨⟨_, happ.trans hrec, rfl, rfl, (Order.recalc_totals_ok hrec).1⟩, ?_⟩
  intro p q hstatus
  unfold Order.add_line
  rw [if_pos hstatus]

theorem apply_discount_status_free_witness :
    paidOrder.status = OrderStatus.PAID ∧
    (∃ o', paidOrder.apply_discount ⟨500, "KRW"⟩ = .ok o' ∧ o'.status = paidOrder.status ∧
       o'.discount_total.amount = paidOrder.discount_total.amount + 500 ∧
       o'.totalsInvariant) ∧
    paidOrder.add_line appleProduct 1 = .error "Can only add lines in DRAFT" := by
  have h := apply_discount_status_free paidOrder ⟨500, "KRW"⟩ ⟨rfl, rfl, by decide⟩
    rfl rfl (by decide)
  exact ⟨rfl, h.1, h.2 appleProduct 1 (by decide)⟩

end Shop
